import Mathlib

/-!
Verification of the example-script collection (hydrogen-next examples).

The repository consists of standalone Python example scripts. Each script
builds a small dataset (a literal list of records or a remote CSV fetch),
constructs a chart specification (a declarative JSON document for the
Vega or Vega-Lite grammars, or an imperative figure object), and hands the
result to a notebook display sink, optionally tagged with a MIME type.

This file gives a shallow embedding of that content:

* `JValue` models JSON documents (the declarative chart specs of
  `src/examples/ex-vega.py` are transcribed literally as `JValue` terms);
* a serializer and parser over character lists model the round trip
  between a constructed spec and its declarative JSON text;
* the remote-fetch scripts (`ex-pandas-2.py`, `ex-plotly-2.py`) are
  modelled as functions of an abstract `read_csv` effect, so that
  propagation of fetch failures is provable;
* the plotly figure and its two `update_layout` calls are modelled as a
  record and two explicit record updates.

Theorems at the end of the file settle the claims about this content.
-/

namespace HydrogenExamples

/-! ### JSON values

JSON documents are modelled with a mutual inductive so that decidable
equality can be derived.  Numbers are kept exact, as the decimal literal
written in the source: `num m e` denotes `m / 10^e` written with `e`
fractional digits (so `6.29` is `num 629 2` and `200` is `num 200 0`).
-/

mutual
inductive JValue where
  | str (s : String)
  | num (m : Int) (e : Nat)
  | bool (b : Bool)
  | arr (xs : JList)
  | obj (fs : JPairs)
deriving DecidableEq, Repr
inductive JList where
  | nil
  | cons (hd : JValue) (tl : JList)
deriving DecidableEq, Repr
inductive JPairs where
  | nil
  | cons (k : String) (v : JValue) (tl : JPairs)
deriving DecidableEq, Repr
end

/-- Build a `JList` from a Lean list. -/
def JList.ofList : List JValue → JList
  | [] => .nil
  | x :: xs => .cons x (JList.ofList xs)

/-- Build a `JPairs` from a Lean association list. -/
def JPairs.ofList : List (String × JValue) → JPairs
  | [] => .nil
  | (k, v) :: xs => .cons k v (JPairs.ofList xs)

/-- View a `JList` as a Lean list. -/
def JList.toList : JList → List JValue
  | .nil => []
  | .cons h t => h :: t.toList

/-- View a `JPairs` as a Lean association list. -/
def JPairs.toList : JPairs → List (String × JValue)
  | .nil => []
  | .cons k v t => (k, v) :: t.toList

/-- First value bound to key `k`, if any. -/
def JPairs.find? : JPairs → String → Option JValue
  | .nil, _ => none
  | .cons k v t, key => if k = key then some v else t.find? key

/-- JSON string literal. -/
def jstr (s : String) : JValue := .str s

/-- JSON integer literal. -/
def jn (n : Int) : JValue := .num n 0

/-- JSON decimal literal with `e` fractional digits: `jd 629 2` is `6.29`. -/
def jd (m : Int) (e : Nat) : JValue := .num m e

/-- JSON boolean literal. -/
def jb (b : Bool) : JValue := .bool b

/-- JSON array literal. -/
def jarr (xs : List JValue) : JValue := .arr (JList.ofList xs)

/-- JSON object literal. -/
def jobj (fs : List (String × JValue)) : JValue := .obj (JPairs.ofList fs)

/-- Key lookup on an object value (`none` on non-objects). -/
def JValue.get? (v : JValue) (key : String) : Option JValue :=
  match v with
  | .obj fs => fs.find? key
  | _ => none

/-- The keys of an object value, in source order (`[]` on non-objects). -/
def JValue.keys (v : JValue) : List String :=
  match v with
  | .obj fs => fs.toList.map Prod.fst
  | _ => []

/-- The key/value entries of an object value (`[]` on non-objects). -/
def JValue.entries (v : JValue) : List (String × JValue) :=
  match v with
  | .obj fs => fs.toList
  | _ => []

/-- The elements of an array value (`[]` on non-arrays). -/
def JValue.elems (v : JValue) : List JValue :=
  match v with
  | .arr xs => xs.toList
  | _ => []

/-- Whether a value is a JSON scalar (string, number, or boolean). -/
def JValue.isScalar (v : JValue) : Bool :=
  match v with
  | .str _ => true
  | .num _ _ => true
  | .bool _ => true
  | .arr _ => false
  | .obj _ => false

/-- Whether a value is a JSON object. -/
def JValue.isObj (v : JValue) : Bool :=
  match v with
  | .obj _ => true
  | _ => false

/-! ### The declarative chart specs of `src/examples/ex-vega.py`

Each definition below is a literal transcription of the corresponding
Python dictionary. -/

/-- Schema URL identifying the Vega-Lite v5 grammar. -/
def vegaLite5Url : String := "https://vega.github.io/schema/vega-lite/v5.json"

/-- Schema URL identifying the Vega v5 grammar. -/
def vega5Url : String := "https://vega.github.io/schema/vega/v5.json"

/-- The simple bar chart spec (`vegalite_spec`, ex-vega.py lines 7-25). -/
def vegalite_spec : JValue := jobj [
  ("$schema", jstr vegaLite5Url),
  ("description", jstr "A simple bar chart"),
  ("data", jobj [
    ("values", jarr [
      jobj [("category", jstr "A"), ("value", jn 28)],
      jobj [("category", jstr "B"), ("value", jn 55)],
      jobj [("category", jstr "C"), ("value", jn 43)],
      jobj [("category", jstr "D"), ("value", jn 91)],
      jobj [("category", jstr "E"), ("value", jn 81)]])]),
  ("mark", jstr "bar"),
  ("encoding", jobj [
    ("x", jobj [("field", jstr "category"), ("type", jstr "nominal")]),
    ("y", jobj [("field", jstr "value"), ("type", jstr "quantitative")]),
    ("color", jobj [("field", jstr "category"), ("type", jstr "nominal")])])]

/-- The line chart spec (`line_spec`, ex-vega.py lines 30-48). -/
def line_spec : JValue := jobj [
  ("$schema", jstr vegaLite5Url),
  ("description", jstr "A line chart with points"),
  ("data", jobj [
    ("values", jarr [
      jobj [("x", jn 0), ("y", jn 0)],
      jobj [("x", jn 1), ("y", jn 2)],
      jobj [("x", jn 2), ("y", jn 1)],
      jobj [("x", jn 3), ("y", jn 4)],
      jobj [("x", jn 4), ("y", jn 3)],
      jobj [("x", jn 5), ("y", jn 6)]])]),
  ("mark", jobj [("type", jstr "line"), ("point", jb true)]),
  ("encoding", jobj [
    ("x", jobj [("field", jstr "x"), ("type", jstr "quantitative")]),
    ("y", jobj [("field", jstr "y"), ("type", jstr "quantitative")])])]

/-- The Vega pie chart spec (`vega_spec`, ex-vega.py lines 53-115). -/
def vega_spec : JValue := jobj [
  ("$schema", jstr vega5Url),
  ("description", jstr "A basic pie chart"),
  ("width", jn 200),
  ("height", jn 200),
  ("autosize", jstr "none"),
  ("signals", jarr [
    jobj [("name", jstr "startAngle"), ("value", jn 0)],
    jobj [("name", jstr "endAngle"), ("value", jd 629 2)],
    jobj [("name", jstr "padAngle"), ("value", jd 2 2)],
    jobj [("name", jstr "innerRadius"), ("value", jn 0)],
    jobj [("name", jstr "sort"), ("value", jb true)]]),
  ("data", jarr [
    jobj [
      ("name", jstr "table"),
      ("values", jarr [
        jobj [("id", jn 1), ("field", jn 4)],
        jobj [("id", jn 2), ("field", jn 6)],
        jobj [("id", jn 3), ("field", jn 10)],
        jobj [("id", jn 4), ("field", jn 3)],
        jobj [("id", jn 5), ("field", jn 7)]]),
      ("transform", jarr [
        jobj [
          ("type", jstr "pie"),
          ("field", jstr "field"),
          ("startAngle", jobj [("signal", jstr "startAngle")]),
          ("endAngle", jobj [("signal", jstr "endAngle")]),
          ("sort", jobj [("signal", jstr "sort")])]])]]),
  ("scales", jarr [
    jobj [
      ("name", jstr "color"),
      ("type", jstr "ordinal"),
      ("domain", jobj [("data", jstr "table"), ("field", jstr "id")]),
      ("range", jobj [("scheme", jstr "category20")])]]),
  ("marks", jarr [
    jobj [
      ("type", jstr "arc"),
      ("from", jobj [("data", jstr "table")]),
      ("encode", jobj [
        ("enter", jobj [
          ("fill", jobj [("scale", jstr "color"), ("field", jstr "id")]),
          ("x", jobj [("signal", jstr "width / 2")]),
          ("y", jobj [("signal", jstr "height / 2")])]),
        ("update", jobj [
          ("startAngle", jobj [("field", jstr "startAngle")]),
          ("endAngle", jobj [("field", jstr "endAngle")]),
          ("padAngle", jobj [("signal", jstr "padAngle")]),
          ("innerRadius", jobj [("signal", jstr "innerRadius")]),
          ("outerRadius", jobj [("signal", jstr "width / 2")])])])]])]

/-- The scatter plot spec (`scatter_spec`, ex-vega.py lines 120-143). -/
def scatter_spec : JValue := jobj [
  ("$schema", jstr vegaLite5Url),
  ("description", jstr "Scatter plot with tooltips"),
  ("data", jobj [
    ("values", jarr [
      jobj [("x", jn 1), ("y", jn 2), ("label", jstr "Point A")],
      jobj [("x", jn 2), ("y", jn 5), ("label", jstr "Point B")],
      jobj [("x", jn 3), ("y", jn 3), ("label", jstr "Point C")],
      jobj [("x", jn 4), ("y", jn 8), ("label", jstr "Point D")],
      jobj [("x", jn 5), ("y", jn 6), ("label", jstr "Point E")]])]),
  ("mark", jobj [("type", jstr "circle"), ("size", jn 100)]),
  ("encoding", jobj [
    ("x", jobj [("field", jstr "x"), ("type", jstr "quantitative"), ("title", jstr "X Axis")]),
    ("y", jobj [("field", jstr "y"), ("type", jstr "quantitative"), ("title", jstr "Y Axis")]),
    ("color", jobj [("field", jstr "label"), ("type", jstr "nominal")]),
    ("tooltip", jarr [
      jobj [("field", jstr "label"), ("type", jstr "nominal")],
      jobj [("field", jstr "x"), ("type", jstr "quantitative")],
      jobj [("field", jstr "y"), ("type", jstr "quantitative")]])])]

/-- The four declarative chart specs constructed in `ex-vega.py`. -/
def allSpecs : List JValue := [vegalite_spec, line_spec, vega_spec, scatter_spec]

/-! ### Extraction functions over specs -/

/-- The value of a spec's top-level schema key. -/
def schemaOf (spec : JValue) : Option JValue := spec.get? "$schema"

/-- The literal records of a Vega-Lite spec's inline dataset
(`spec.data.values`). -/
def vlDataRecords (spec : JValue) : List JValue :=
  match spec.get? "data" with
  | some d =>
    match d.get? "values" with
    | some (.arr xs) => xs.toList
    | _ => []
  | none => []

/-- The dataset declarations of a Vega spec (`spec.data` is an array). -/
def vegaDatasets (spec : JValue) : List JValue :=
  match spec.get? "data" with
  | some (.arr xs) => xs.toList
  | _ => []

/-- The Vega dataset declaration with the given name, if any. -/
def vegaDataset? (spec : JValue) (dsname : String) : Option JValue :=
  (vegaDatasets spec).find? (fun d => d.get? "name" == some (.str dsname))

/-- The literal records of a Vega dataset declaration. -/
def datasetValues (d : JValue) : List JValue :=
  match d.get? "values" with
  | some (.arr xs) => xs.toList
  | _ => []

/-- The literal records of `vega_spec`'s dataset named `table`. -/
def vegaTableRecords : List JValue :=
  match vegaDataset? vega_spec "table" with
  | some d => datasetValues d
  | none => []

/-- The data field referenced by one encoding entry: a `field` key bound to
a string (as in a Vega-Lite channel object or a Vega mark encode entry). -/
def fieldRefOf (v : JValue) : List String :=
  match v.get? "field" with
  | some (.str f) => [f]
  | _ => []

/-- The data fields referenced by one Vega-Lite encoding channel: either a
single channel object with a `field` key, or a list of such objects (the
`tooltip` channel). -/
def channelRefFields (v : JValue) : List String :=
  match v with
  | .arr xs => xs.toList.flatMap fieldRefOf
  | _ => fieldRefOf v

/-- All data fields referenced by a Vega-Lite spec's `encoding` block. -/
def vlEncodingFields (spec : JValue) : List String :=
  match spec.get? "encoding" with
  | some (.obj fs) => fs.toList.flatMap (fun kv => channelRefFields kv.2)
  | _ => []

/-- The marks of a Vega spec. -/
def vegaMarks (spec : JValue) : List JValue :=
  match spec.get? "marks" with
  | some (.arr xs) => xs.toList
  | _ => []

/-- All data fields referenced by a Vega mark's `encode` blocks
(`enter`, `update`, ...): every entry carrying a string `field` key. -/
def markEncodeFields (mark : JValue) : List String :=
  match mark.get? "encode" with
  | some (.obj blocks) =>
    blocks.toList.flatMap (fun bl => bl.2.entries.flatMap (fun e => fieldRefOf e.2))
  | _ => []

/-- The dataset name a Vega mark draws from (`mark.from.data`). -/
def markFromData (mark : JValue) : Option String :=
  match mark.get? "from" with
  | some f =>
    match f.get? "data" with
    | some (.str n) => some n
    | _ => none
  | none => none

/-- Every field in `fields` is a key of every record in `records`. -/
def fieldsPresentIn (fields : List String) (records : List JValue) : Bool :=
  fields.all (fun f => records.all (fun r => r.keys.contains f))

/-- Claim C1's check on a Vega-Lite spec: every encoding channel's
referenced field is a key of every record of the spec's inline dataset. -/
def vlEncodingOk (spec : JValue) : Bool :=
  fieldsPresentIn (vlEncodingFields spec) (vlDataRecords spec)

/-- Claim C1's check on a Vega spec: every field referenced by a mark's
encode blocks is a key of every literal record of the dataset the mark
draws from. -/
def vegaEncodingOk (spec : JValue) : Bool :=
  (vegaMarks spec).all (fun mk =>
    match markFromData mk with
    | some n =>
      match vegaDataset? spec n with
      | some d => fieldsPresentIn (markEncodeFields mk) (datasetValues d)
      | none => false
    | none => true)

/-- Claim C1's check on any spec of the repository: the Vega-Lite check and
the Vega check (each is vacuous on specs of the other grammar). -/
def specEncodingOk (spec : JValue) : Bool :=
  vlEncodingOk spec && vegaEncodingOk spec

/-- Modelled from the spec: the fields that the external Vega rendering
library adds to each record of a dataset when evaluating the dataset's
declared transforms.  The spec states the encoding-field invariant "is
enforced by the external rendering library"; per Vega's documented
semantics the `pie` transform adds a `startAngle` and an `endAngle` field
to every record.  Transforms other than `pie` do not occur in this
repository and contribute nothing. -/
def transformAddedFields (d : JValue) : List String :=
  match d.get? "transform" with
  | some (.arr ts) =>
    ts.toList.flatMap (fun t =>
      if t.get? "type" == some (.str "pie") then ["startAngle", "endAngle"] else [])
  | _ => []

/-- The amended Vega check: every field referenced by a mark's encode
blocks is either a key of every literal record of the dataset the mark
draws from, or a field added to that dataset by its declared transforms. -/
def vegaEncodingOkWithTransforms (spec : JValue) : Bool :=
  (vegaMarks spec).all (fun mk =>
    match markFromData mk with
    | some n =>
      match vegaDataset? spec n with
      | some d =>
        (markEncodeFields mk).all (fun f =>
          (datasetValues d).all (fun r => r.keys.contains f)
          || (transformAddedFields d).contains f)
      | none => false
    | none => true)

/-! ### Display calls (the MIME-tagged display sink)

Each of the four `display(...)` lines in `ex-vega.py` passes a one-entry
dictionary mapping a MIME type to a spec, together with `raw=True`. -/

/-- The Vega-Lite v5 MIME type used in the display payloads. -/
def vegaLiteMime : String := "application/vnd.vegalite.v5+json"

/-- The Vega v5 MIME type used in the display payloads. -/
def vegaMime : String := "application/vnd.vega.v5+json"

/-- An invocation of the display sink: a MIME-keyed payload dictionary and
the `raw` flag. -/
structure DisplayCall where
  payload : List (String × JValue)
  raw : Bool
deriving DecidableEq, Repr

/-- How every display line of `ex-vega.py` builds its argument: a
dictionary with the single entry `mime ↦ spec`, passed with `raw=True`.
This is a total function of the spec; it inspects nothing and rejects
nothing. -/
def mkMimePayload (mime : String) (spec : JValue) : DisplayCall :=
  { payload := [(mime, spec)], raw := true }

/-- The four display calls of `ex-vega.py`, in program order
(lines 27, 50, 117, 145). -/
def exVegaDisplayCalls : List DisplayCall :=
  [mkMimePayload vegaLiteMime vegalite_spec,
   mkMimePayload vegaLiteMime line_spec,
   mkMimePayload vegaMime vega_spec,
   mkMimePayload vegaLiteMime scatter_spec]

/-- Claim C9's check on one display call: `raw` is set, the payload has
exactly one key, and that key is the Vega-Lite MIME type exactly when the
enclosed spec's schema is the Vega-Lite v5 URL, and the Vega MIME type
exactly when it is the Vega v5 URL. -/
def displayCallOk (c : DisplayCall) : Bool :=
  c.raw && c.payload.length == 1 &&
    c.payload.all (fun kv =>
      ((kv.1 == vegaLiteMime) == (schemaOf kv.2 == some (.str vegaLite5Url)))
      && ((kv.1 == vegaMime) == (schemaOf kv.2 == some (.str vega5Url))))

/-! ### JSON text: serializer and parser

The serializer prints a `JValue` to a character list in compact JSON (no
whitespace), escaping quotes and backslashes in strings.  The parser reads
it back; recursion is on an explicit fuel counter, in the round-trip
theorems instantiated with the length of the input. -/

/-- The opening-brace character. -/
def lbrace : Char := Char.ofNat 123

/-- The closing-brace character. -/
def rbrace : Char := Char.ofNat 125

/-- Escape a JSON string body: backslash-escape quotes and backslashes. -/
def escapeChars : List Char → List Char
  | [] => []
  | c :: cs =>
    if c = '"' || c = '\\' then '\\' :: c :: escapeChars cs
    else c :: escapeChars cs

/-- Decimal digit character for `d < 10`. -/
def digitChar (d : Nat) : Char := Char.ofNat (48 + d)

/-- Decimal digits of `n`, most significant first (fuel-driven helper). -/
def digitsAux : Nat → Nat → List Char
  | 0, _ => []
  | fuel + 1, n =>
    if n < 10 then [digitChar n]
    else digitsAux fuel (n / 10) ++ [digitChar (n % 10)]

/-- Decimal digits of a natural number, most significant first. -/
def natDigits (n : Nat) : List Char := digitsAux (n + 1) n

/-- Print the JSON number `m / 10^e`: the integer part, then, when
`e > 0`, a decimal point and the `e` fraction digits (zero-padded). -/
def serNum (m : Int) (e : Nat) : List Char :=
  let sign : List Char := if m < 0 then ['-'] else []
  let n := m.natAbs
  if e = 0 then sign ++ natDigits n
  else
    let frac := natDigits (n % 10 ^ e)
    sign ++ natDigits (n / 10 ^ e) ++ '.' :: (List.replicate (e - frac.length) '0' ++ frac)

/-- Join pieces of text with comma separators. -/
def commaJoin : List (List Char) → List Char
  | [] => []
  | [x] => x
  | x :: y :: t => x ++ ',' :: commaJoin (y :: t)

/-- A quoted, escaped JSON string literal. -/
def serQuoted (s : String) : List Char := '"' :: escapeChars s.data ++ ['"']

/-- Serialize a JSON value to compact JSON text.  Recursion is structural
on the fuel counter so that the definition reduces definitionally; any
fuel at least the nesting depth of the value gives the full output. -/
def serValF : Nat → JValue → List Char
  | 0, _ => []
  | fuel + 1, v =>
    match v with
    | .str s => serQuoted s
    | .num m e => serNum m e
    | .bool b => if b then ['t', 'r', 'u', 'e'] else ['f', 'a', 'l', 's', 'e']
    | .arr xs => '[' :: commaJoin (xs.toList.map (serValF fuel)) ++ [']']
    | .obj fs =>
      lbrace :: commaJoin (fs.toList.map (fun kv => serQuoted kv.1 ++ ':' :: serValF fuel kv.2))
        ++ [rbrace]

/-- Parse a JSON string body up to the closing quote, undoing the
serializer's escapes; returns the body and the rest of the input. -/
def parseStrBody : List Char → Option (List Char × List Char)
  | [] => none
  | c :: r =>
    if c = '"' then some ([], r)
    else if c = '\\' then
      match r with
      | [] => none
      | e :: r2 => (parseStrBody r2).map (fun p => (e :: p.1, p.2))
    else (parseStrBody r).map (fun p => (c :: p.1, p.2))

/-- Longest digit prefix of the input, and the rest. -/
def takeDigits : List Char → List Char × List Char
  | [] => ([], [])
  | c :: cs =>
    if c.isDigit then
      let p := takeDigits cs
      (c :: p.1, p.2)
    else ([], c :: cs)

/-- Numeric value of a digit string. -/
def digitsToNat (ds : List Char) : Nat :=
  ds.foldl (fun a c => a * 10 + (c.toNat - 48)) 0

/-- Parse a JSON number: optional minus sign, integer digits, optional
decimal point and fraction digits.  The fraction's length becomes the
`e` component of `JValue.num`. -/
def parseNum (cs : List Char) : Option (JValue × List Char) :=
  let signed : Bool × List Char :=
    match cs with
    | '-' :: r => (true, r)
    | _ => (false, cs)
  let ip := takeDigits signed.2
  if ip.1 = [] then none
  else
    match ip.2 with
    | '.' :: cs3 =>
      let fp := takeDigits cs3
      if fp.1 = [] then none
      else
        let m : Int := (digitsToNat (ip.1 ++ fp.1) : Nat)
        some (.num (if signed.1 then -m else m) fp.1.length, fp.2)
    | _ =>
      let m : Int := (digitsToNat ip.1 : Nat)
      some (.num (if signed.1 then -m else m) 0, ip.2)

/-- Parsing modes: one JSON value, the rest of an array after an element,
or the rest of an object after an entry. -/
inductive PMode where
  | value
  | arrayRest
  | objectRest

/-- Parse in the given mode.  `arrayRest` returns its elements wrapped as
`JValue.arr`; `objectRest` returns its entries wrapped as `JValue.obj`.
Recursion is structural on the fuel counter; every recursive call happens
strictly after consuming input, so fuel one more than the input length
always suffices. -/
def parseF : Nat → PMode → List Char → Option (JValue × List Char)
  | 0, _, _ => none
  | _ + 1, _, [] => none
  | fuel + 1, .value, c :: rest =>
    if c = '"' then
      (parseStrBody rest).map (fun p => (.str (String.mk p.1), p.2))
    else if c = 't' then
      match rest with
      | 'r' :: 'u' :: 'e' :: r => some (.bool true, r)
      | _ => none
    else if c = 'f' then
      match rest with
      | 'a' :: 'l' :: 's' :: 'e' :: r => some (.bool false, r)
      | _ => none
    else if c = '[' then
      match rest with
      | ']' :: r => some (.arr .nil, r)
      | _ =>
        match parseF fuel .value rest with
        | some (v, r1) =>
          match parseF fuel .arrayRest r1 with
          | some (.arr xs, r2) => some (.arr (.cons v xs), r2)
          | _ => none
        | none => none
    else if c = lbrace then
      match rest with
      | c2 :: r =>
        if c2 = rbrace then some (.obj .nil, r)
        else if c2 = '"' then
          match parseStrBody r with
          | some (kcs, r1) =>
            match r1 with
            | ':' :: r2 =>
              match parseF fuel .value r2 with
              | some (v, r3) =>
                match parseF fuel .objectRest r3 with
                | some (.obj fs, r4) => some (.obj (.cons (String.mk kcs) v fs), r4)
                | _ => none
              | none => none
            | _ => none
          | none => none
        else none
      | [] => none
    else parseNum (c :: rest)
  | fuel + 1, .arrayRest, c :: rest =>
    if c = ']' then some (.arr .nil, rest)
    else if c = ',' then
      match parseF fuel .value rest with
      | some (v, r1) =>
        match parseF fuel .arrayRest r1 with
        | some (.arr xs, r2) => some (.arr (.cons v xs), r2)
        | _ => none
      | none => none
    else none
  | fuel + 1, .objectRest, c :: rest =>
    if c = rbrace then some (.obj .nil, rest)
    else if c = ',' then
      match rest with
      | '"' :: r =>
        match parseStrBody r with
        | some (kcs, r1) =>
          match r1 with
          | ':' :: r2 =>
            match parseF fuel .value r2 with
            | some (v, r3) =>
              match parseF fuel .objectRest r3 with
              | some (.obj fs, r4) => some (.obj (.cons (String.mk kcs) v fs), r4)
              | _ => none
            | none => none
          | _ => none
        | none => none
      | _ => none
    else none

mutual
/-- Nesting depth of a JSON value: scalars are depth one; an array or
object is one more than the deepest element below it. -/
def depthV : JValue → Nat
  | .str _ => 1
  | .num _ _ => 1
  | .bool _ => 1
  | .arr xs => 1 + depthL xs
  | .obj fs => 1 + depthP fs
termination_by structural v => v
/-- Deepest value in an array body. -/
def depthL : JList → Nat
  | .nil => 0
  | .cons h t => Nat.max (depthV h) (depthL t)
termination_by structural l => l
/-- Deepest value in an object body. -/
def depthP : JPairs → Nat
  | .nil => 0
  | .cons _ v t => Nat.max (depthV v) (depthP t)
termination_by structural p => p
end

/-- Serialize a chart spec to its declarative JSON text.  The depth of the
value always suffices as fuel. -/
def serializeJson (v : JValue) : List Char := serValF (depthV v) v

/-- Parse a complete JSON document: a value consuming the whole input. -/
def parseJson (cs : List Char) : Option JValue :=
  match parseF (cs.length + 1) .value cs with
  | some (v, []) => some v
  | _ => none

/-! ### The remote-fetch scripts

`ex-pandas-2.py` and `ex-plotly-2.py` each fetch one CSV from a fixed
URL and display the result.  The CSV reader is an abstract effect
(`read_csv : String → Except String Table`): success yields a table,
failure an error.  Neither script contains a handler, a retry, or a
branch on failure, so the scripts are straight-line `Except` pipelines. -/

/-- A fetched tabular dataset: rows of cell strings (the shape is
irrelevant to the claims; only success or failure of the fetch matters). -/
abbrev Table := List (List String)

/-- The fixed URL fetched by `ex-pandas-2.py` (`iris_url`, line 10). -/
def iris_url : String :=
  "https://archive.ics.uci.edu/ml/machine-learning-databases/iris/iris.data"

/-- The fixed URL fetched by `ex-plotly-2.py` (line 10). -/
def mt_bruno_url : String :=
  "https://raw.githubusercontent.com/plotly/datasets/master/api_docs/mt_bruno_elevation.csv"

/-- `ex-pandas-2.py`: fetch the iris CSV into `df1` and display it.
The displayed value is the fetched table itself. -/
def exPandas2 (read_csv : String → Except String Table) : Except String Table := do
  let df1 ← read_csv iris_url
  pure df1

/-! The plotly figure.  `go.Figure(data=go.Surface(z=z_data,
showscale=False))` is a record; its layout starts unset and the two
`update_layout` calls fill layout fields in place. -/

/-- The plot margins set by the first `update_layout` call. -/
structure Margin where
  t : Nat
  r : Nat
  l : Nat
  b : Nat
deriving DecidableEq, Repr

/-- A 3-component vector of the camera dictionaries. -/
structure Vec3 where
  x : Rat
  y : Rat
  z : Rat
deriving DecidableEq, Repr

/-- The scene camera: up, center and eye vectors. -/
structure Camera where
  up : Vec3
  center : Vec3
  eye : Vec3
deriving DecidableEq, Repr

/-- The surface trace: the height data and the `showscale` flag. -/
structure Surface where
  z : Table
  showscale : Bool
deriving DecidableEq, Repr

/-- The figure layout; every field starts unset at construction. -/
structure PlotLayout where
  title : Option String
  width : Option Nat
  height : Option Nat
  margin : Option Margin
  scene_camera : Option Camera
deriving DecidableEq, Repr

/-- A plotly figure: one surface trace and a layout. -/
structure Figure where
  data : Surface
  layout : PlotLayout
deriving DecidableEq, Repr

/-- `go.Figure(data=go.Surface(z=z_data, showscale=False))`: the figure as
originally constructed, with no layout field set. -/
def goFigure (z_data : Table) : Figure :=
  { data := { z := z_data, showscale := false },
    layout := { title := none, width := none, height := none,
                margin := none, scene_camera := none } }

/-- The first `update_layout` call (ex-plotly-2.py lines 13-17): sets the
title, dimensions and margins, leaving other fields as they were. -/
def updateLayout1 (fig : Figure) : Figure :=
  { fig with layout :=
      { fig.layout with
          title := some "Mt Bruno Elevation",
          width := some 500,
          height := some 500,
          margin := some { t := 40, r := 0, l := 20, b := 20 } } }

/-- The camera dictionary built at ex-plotly-2.py lines 20-24. -/
def cameraSetting : Camera :=
  { up := { x := 0, y := 0, z := 1 },
    center := { x := 0, y := 0, z := 0 },
    eye := { x := 1.25, y := 1.25, z := 1.25 } }

/-- The second `update_layout` call (line 25): sets the scene camera. -/
def updateLayout2 (fig : Figure) : Figure :=
  { fig with layout := { fig.layout with scene_camera := some cameraSetting } }

/-- The figure as handed to `display(fig)` (line 30): the constructed
figure after both `update_layout` calls. -/
def exPlotly2Fig (z_data : Table) : Figure :=
  updateLayout2 (updateLayout1 (goFigure z_data))

/-- `ex-plotly-2.py`: fetch the elevation CSV, build the figure, apply
both layout updates, and display the result. -/
def exPlotly2 (read_csv : String → Except String Table) : Except String Figure := do
  let z_data ← read_csv mt_bruno_url
  pure (exPlotly2Fig z_data)

/-! ### Runtime inputs

Neither remote-fetch script reads command-line arguments, configuration
files, or environment variables; the URL each passes to its fetch call is
a string literal.  The functions below therefore ignore their
`RuntimeInput` argument, exactly as the scripts ignore these sources. -/

/-- The runtime inputs a script could in principle consult: command-line
arguments, environment variables, and configuration-file contents. -/
structure RuntimeInput where
  argv : List String
  environ : List (String × String)
  configFiles : List (String × String)

/-- The URLs `ex-pandas-2.py` passes to its fetch calls, as a function of
the runtime inputs: the one literal `iris_url`, whatever the inputs. -/
def exPandas2FetchedUrls (_rt : RuntimeInput) : List String := [iris_url]

/-- The URLs `ex-plotly-2.py` passes to its fetch calls, as a function of
the runtime inputs: the one literal elevation-CSV URL. -/
def exPlotly2FetchedUrls (_rt : RuntimeInput) : List String := [mt_bruno_url]

/-! ### A malformed spec for the no-local-validation claim -/

/-- A deliberately malformed Vega-Lite spec: its only encoding channel
references a field `missing` that no record of its dataset carries. -/
def badSpec : JValue := jobj [
  ("$schema", jstr vegaLite5Url),
  ("data", jobj [("values", jarr [jobj [("category", jstr "A")]])]),
  ("mark", jstr "bar"),
  ("encoding", jobj [
    ("x", jobj [("field", jstr "missing"), ("type", jstr "quantitative")])])]

/-! ### Uniform-schema check on the literal datasets -/

/-- The two key lists contain the same set of keys. -/
def sameKeySet (a b : List String) : Bool :=
  a.all (fun k => b.contains k) && b.all (fun k => a.contains k)

/-- Claim C10's check on one literal record list: every record is an
object, all records carry the same set of field names, and every field
value is a scalar. -/
def recordsUniform (rs : List JValue) : Bool :=
  rs.all (fun r => r.isObj) &&
  (match rs with
   | [] => true
   | r :: rest => rest.all (fun s => sameKeySet s.keys r.keys)) &&
  rs.all (fun r => r.entries.all (fun kv => kv.2.isScalar))

/-- The literal `data.values` record lists of `ex-vega.py`, one per
dataset, in source order. -/
def allValuesLists : List (List JValue) :=
  [vlDataRecords vegalite_spec,
   vlDataRecords line_spec,
   vegaTableRecords,
   vlDataRecords scatter_spec]

/-! ## Theorems settling the claims -/

/-- Claim C1, counterexample: the claim "every encoding channel references
a field present in the records of the spec's bound dataset" fails on
`vega_spec`.  Its pie-chart mark's encode blocks reference the fields
`id`, `startAngle` and `endAngle`, but every literal record of the bound
`table` dataset has exactly the keys `id` and `field` — `startAngle` and
`endAngle` are not present, so the combined check is false on `vega_spec`
and hence on the collection of all four specs. -/
theorem C1_counterexample :
    allSpecs.all specEncodingOk = false ∧
    specEncodingOk vega_spec = false ∧
    (vegaMarks vega_spec).flatMap markEncodeFields = ["id", "startAngle", "endAngle"] ∧
    vegaTableRecords.map JValue.keys = List.replicate 5 ["id", "field"] := by
  decide

/-- Claim C1, amended: every encoding channel of the three Vega-Lite specs
references a field present in every record of its inline dataset — in
particular the scatter-plot spec's channels (its tooltip list included)
reference exactly `x`, `y`, `label`, each a key of all five records — and
every field referenced by the Vega pie chart's mark encodings is either a
key of every literal `table` record or one of the fields the dataset's
declared pie transform adds (`startAngle`, `endAngle`). -/
theorem C1_encoding_fields_amended :
    vlEncodingOk vegalite_spec = true ∧
    vlEncodingOk line_spec = true ∧
    vlEncodingOk scatter_spec = true ∧
    vlEncodingFields scatter_spec = ["x", "y", "label", "label", "x", "y"] ∧
    (vlDataRecords scatter_spec).map JValue.keys = List.replicate 5 ["x", "y", "label"] ∧
    vegaEncodingOkWithTransforms vega_spec = true := by
  decide

/-- Claim C2: each of the four declarative chart documents carries a
top-level schema key equal to one of the two recognized grammar version
URLs — the Vega-Lite v5 URL for the three Vega-Lite specs and the Vega v5
URL for the pie chart — and the two URLs are distinct, so each document
matches exactly one. -/
theorem C2_schema_urls :
    schemaOf vegalite_spec = some (.str vegaLite5Url) ∧
    schemaOf line_spec = some (.str vegaLite5Url) ∧
    schemaOf scatter_spec = some (.str vegaLite5Url) ∧
    schemaOf vega_spec = some (.str vega5Url) ∧
    vegaLite5Url ≠ vega5Url ∧
    vegaLite5Url = "https://vega.github.io/schema/vega-lite/v5.json" ∧
    vega5Url = "https://vega.github.io/schema/vega/v5.json" := by
  refine ⟨rfl, rfl, rfl, rfl, by decide, rfl, rfl⟩

/-- Claim C3: the number of records in each literal dataset equals the
number of literal record entries written in the source — the bar-chart
example's dataset has exactly 5 records, each with exactly the fields
`category` and `value`; the line chart has 6, the Vega table 5, and the
scatter plot 5, matching the entries written in `ex-vega.py`. -/
theorem C3_literal_dataset_sizes :
    (vlDataRecords vegalite_spec).length = 5 ∧
    (vlDataRecords vegalite_spec).map JValue.keys = List.replicate 5 ["category", "value"] ∧
    (vlDataRecords line_spec).length = 6 ∧
    vegaTableRecords.length = 5 ∧
    (vlDataRecords scatter_spec).length = 5 := by
  decide

/-- Claim C4: in both remote-fetch scripts, a failed fetch of the target
URL makes the whole script evaluate to that same error: the failure
propagates through the straight-line pipeline uncaught (there is no
recovery, retry or translation step in either script's model), and the
script terminates with it rather than continuing past the fetch. -/
theorem C4_fetch_failure_propagates
    (read_csv : String → Except String Table) (e : String) :
    (read_csv iris_url = .error e → exPandas2 read_csv = .error e) ∧
    (read_csv mt_bruno_url = .error e → exPlotly2 read_csv = .error e) := by
  constructor
  · intro h
    simp only [exPandas2, h]
    rfl
  · intro h
    simp only [exPlotly2, h]
    rfl

/-- Witness for C4: with a fetch that fails with a network error on every
URL, both scripts evaluate to exactly that error. -/
theorem C4_fetch_failure_propagates_witness :
    exPandas2 (fun _ => .error "network unreachable") = .error "network unreachable" ∧
    exPlotly2 (fun _ => .error "network unreachable") = .error "network unreachable" :=
  ⟨(C4_fetch_failure_propagates (fun _ => .error "network unreachable")
      "network unreachable").1 rfl,
   (C4_fetch_failure_propagates (fun _ => .error "network unreachable")
      "network unreachable").2 rfl⟩

set_option maxRecDepth 200000 in
/-- Claim C5: serializing each declarative chart spec constructed in the
repository to its JSON text and parsing that text back yields exactly the
original specification, field for field. -/
theorem C5_json_round_trip :
    parseJson (serializeJson vegalite_spec) = some vegalite_spec ∧
    parseJson (serializeJson line_spec) = some line_spec ∧
    parseJson (serializeJson vega_spec) = some vega_spec ∧
    parseJson (serializeJson scatter_spec) = some scatter_spec := by
  decide

/-- Claim C6, counterexample: in `ex-plotly-2.py` the figure handed to the
display call is not field-for-field identical to the figure as originally
constructed: the two `update_layout` statements executed after
`go.Figure(...)` mutate it, so its title (among other layout fields) has
changed from unset to `Mt Bruno Elevation` by the time it is displayed. -/
theorem C6_counterexample :
    exPlotly2Fig [] ≠ goFigure [] ∧
    (exPlotly2Fig []).layout.title = some "Mt Bruno Elevation" ∧
    (goFigure []).layout.title = none := by
  refine ⟨by decide, rfl, rfl⟩

/-- Claim C6, amended: the object handed to each display call is exactly
the value produced by the script's construction sequence, and nothing
after that sequence mutates it.  In `ex-plotly-2.py` that sequence
includes the two `update_layout` calls, which touch only layout fields —
the figure's data is unchanged from construction; in `ex-vega.py` each
displayed payload holds the spec dictionary exactly as constructed; in
`ex-pandas-2.py` the displayed table is the fetched table unchanged. -/
theorem C6_no_mutation_after_construction (z_data t : Table) :
    exPlotly2Fig z_data = updateLayout2 (updateLayout1 (goFigure z_data)) ∧
    (exPlotly2Fig z_data).data = (goFigure z_data).data ∧
    exVegaDisplayCalls.map (fun c => c.payload.map Prod.snd) =
      [[vegalite_spec], [line_spec], [vega_spec], [scatter_spec]] ∧
    exPandas2 (fun _ => .ok t) = .ok t :=
  ⟨rfl, rfl, rfl, rfl⟩

/-- Claim C7: payload construction is a pure total function — for every
spec value whatsoever it succeeds and returns the spec unchanged inside a
one-entry MIME dictionary — and it performs no validation: the malformed
`badSpec`, whose encoding references a field absent from its dataset,
fails the well-formedness check yet is constructed into a payload exactly
like any other spec. -/
theorem C7_construction_pure_no_validation (mime : String) (spec : JValue) :
    mkMimePayload mime spec = { payload := [(mime, spec)], raw := true } ∧
    specEncodingOk badSpec = false ∧
    mkMimePayload vegaLiteMime badSpec = { payload := [(vegaLiteMime, badSpec)], raw := true } :=
  ⟨rfl, by decide, rfl⟩

/-- Claim C8: the URL each remote-fetch script passes to its fetch call is
a fixed string literal — across any two runtime inputs (command-line
arguments, environment variables, configuration files) the fetched URLs
are identical, and they equal the literals written in the source. -/
theorem C8_fixed_fetch_urls (rt rt' : RuntimeInput) :
    exPandas2FetchedUrls rt = exPandas2FetchedUrls rt' ∧
    exPandas2FetchedUrls rt =
      ["https://archive.ics.uci.edu/ml/machine-learning-databases/iris/iris.data"] ∧
    exPlotly2FetchedUrls rt = exPlotly2FetchedUrls rt' ∧
    exPlotly2FetchedUrls rt =
      ["https://raw.githubusercontent.com/plotly/datasets/master/api_docs/mt_bruno_elevation.csv"] :=
  ⟨rfl, rfl, rfl, rfl⟩

/-- Claim C9: each of the four display calls of `ex-vega.py` passes
`raw=True` and a payload dictionary with exactly one key, and that key is
the Vega-Lite v5 MIME type exactly when the enclosed spec's schema is the
Vega-Lite v5 URL and the Vega v5 MIME type exactly when it is the Vega v5
URL. -/
theorem C9_display_mime_matches_schema :
    exVegaDisplayCalls.all displayCallOk = true ∧ exVegaDisplayCalls.length = 4 := by
  decide

/-- Claim C10: in every literal `data.values` list of `ex-vega.py`, all
records are objects sharing exactly the same set of field names, and every
field value is a scalar (string, number or boolean), never a nested
mapping or list. -/
theorem C10_uniform_scalar_records :
    allValuesLists.all recordsUniform = true ∧ allValuesLists.length = 4 := by
  decide

end HydrogenExamples
